import Mathlib

/-!
Verification of the IFC-processing backend: a shallow embedding of
`geometry_extractor.py`, `ifc_processor.py` and `main.py`.

Conventions of the embedding:
* Python floats are modelled as exact rationals (`ℚ`).
* Python dicts are modelled as association lists in insertion order;
  assigning to an existing key updates the value in place (keeping the
  original position), assigning to a fresh key appends it at the end,
  exactly like CPython dictionaries.
* Python's stable `sort`/`sorted` with a key function is modelled by
  `List.insertionSort` on the corresponding relation (both are stable).
* `None` is modelled by `Option.none`; Python truthiness of an optional
  value is modelled explicitly at every use site (`None`, `0` and `""`
  are falsy).
-/

/-! ## Association-list model of Python dicts -/

/-- `d.get(k, dflt)` on a Python dict modelled as an association list. -/
def pyGet {κ β : Type} [DecidableEq κ] : List (κ × β) → κ → β → β
  | [], _, dflt => dflt
  | (k', v) :: rest, k, dflt => if k' = k then v else pyGet rest k dflt

/-- `k in d` membership test / `d[k]` lookup on a Python dict. -/
def pyFind {κ β : Type} [DecidableEq κ] : List (κ × β) → κ → Option β
  | [], _ => none
  | (k', v) :: rest, k => if k' = k then some v else pyFind rest k

/-- `d[k] = v` on a Python dict: update in place if the key is present
(keeping its position), append otherwise. -/
def pySet {κ β : Type} [DecidableEq κ] : List (κ × β) → κ → β → List (κ × β)
  | [], k, v => [(k, v)]
  | (k', v') :: rest, k, v =>
    if k' = k then (k', v) :: rest else (k', v') :: pySet rest k v

/-- `d[k] = f(d[k])` on a `defaultdict` with default `dflt`: the access
creates the entry with the default if the key is missing. -/
def pyModify {κ β : Type} [DecidableEq κ] : List (κ × β) → κ → β → (β → β) → List (κ × β)
  | [], k, dflt, f => [(k, f dflt)]
  | (k', v') :: rest, k, dflt, f =>
    if k' = k then (k', f v') :: rest else (k', v') :: pyModify rest k dflt f

/-! ## Python numbers

A property value in an IFC property set can be an `int` or a `float`
(`isinstance(prop_value, (int, float))`) or something non-numeric.  We keep
the int/float distinction because Python formats `5` and `5.0` differently
in f-strings. -/

inductive PyNum where
  | pint : ℤ → PyNum
  | pfloat : ℚ → PyNum
deriving DecidableEq

/-- Numeric value of a Python number, for comparisons. -/
def PyNum.val : PyNum → ℚ
  | pint n => (n : ℚ)
  | pfloat q => q

/-- Number of decimal digits needed to write `q` exactly (27 when `q` is
not a terminating decimal; every value in scope is). -/
def decimalDigits (q : ℚ) : ℕ :=
  (((List.range 28).find? (fun k => (q * (10 : ℚ) ^ k).den == 1)).getD 27)

/-- `repr`/f-string rendering of a Python float holding the exact decimal
value `q`: minimal decimal digits, but always at least one digit after the
point (`repr(1.0) == "1.0"`). -/
def pyFloatRepr (q : ℚ) : String :=
  let a := |q|
  let k := max 1 (decimalDigits a)
  let n := (a * (10 : ℚ) ^ k).floor.toNat
  let fstr := toString (n % 10 ^ k)
  let pad := String.mk (List.replicate (k - fstr.length) '0')
  (if q < 0 then "-" else "") ++ toString (n / 10 ^ k) ++ "." ++ pad ++ fstr

/-- f-string rendering of a Python number. -/
def PyNum.render : PyNum → String
  | pint n => toString n
  | pfloat q => pyFloatRepr q

/-- Python `round(q, 2)` on a float: round half to even at two decimals. -/
def roundHalfEven2 (q : ℚ) : ℚ :=
  let s := q * 100
  let n := s.floor
  let r := s - (n : ℚ)
  let m : ℤ :=
    if r < 1 / 2 then n
    else if 1 / 2 < r then n + 1
    else if n % 2 = 0 then n else n + 1
  (m : ℚ) / 100

/-- Python `round(v, 2)`: `round` of an `int` with a digit count is the
`int` itself; a float is rounded half-to-even at two decimals. -/
def PyNum.round2 : PyNum → PyNum
  | pint n => pint n
  | pfloat q => pfloat (roundHalfEven2 q)

/-! ## Geometry extractor (`geometry_extractor.py`) -/

/-- A 3-vector of (exact) coordinates, one vertex of a tessellated shape. -/
structure Vec3 where
  x : ℚ
  y : ℚ
  z : ℚ
deriving DecidableEq

/-- `IFCGeometryExtractor.MIN_SIZE_THRESHOLD` (1mm). -/
def MIN_SIZE_THRESHOLD : ℚ := 0.001

/-- The bounding-box dict `{min, max, center, size}`. -/
structure BBox where
  min : Vec3
  max : Vec3
  center : Vec3
  size : Vec3
deriving DecidableEq

/-- `_default_bbox`: the fallback box for invalid geometry
(a cube of side `MIN_SIZE_THRESHOLD * 10` with its min corner at the origin). -/
def default_bbox : BBox :=
  let d := MIN_SIZE_THRESHOLD * 10
  { min := ⟨0, 0, 0⟩
    max := ⟨d, d, d⟩
    center := ⟨d / 2, d / 2, d / 2⟩
    size := ⟨d, d, d⟩ }

/-- The coordinate transformation applied to every vertex:
`transformed_verts[:, [1, 2]] = transformed_verts[:, [2, 1]]`
(swap the Y and Z components). -/
def swapYZ (v : Vec3) : Vec3 := ⟨v.x, v.z, v.y⟩

/-- Componentwise minimum (`np.ndarray.min(axis=0)` step). -/
def vmin (a b : Vec3) : Vec3 := ⟨min a.x b.x, min a.y b.y, min a.z b.z⟩

/-- Componentwise maximum (`np.ndarray.max(axis=0)` step). -/
def vmax (a b : Vec3) : Vec3 := ⟨max a.x b.x, max a.y b.y, max a.z b.z⟩

/-- Componentwise difference. -/
def vsub (a b : Vec3) : Vec3 := ⟨a.x - b.x, a.y - b.y, a.z - b.z⟩

/-- `np.maximum(v, c)` with a scalar second argument. -/
def vmaxScalar (a : Vec3) (c : ℚ) : Vec3 := ⟨max a.x c, max a.y c, max a.z c⟩

/-- Componentwise midpoint `(a + b) / 2`. -/
def vmid (a b : Vec3) : Vec3 := ⟨(a.x + b.x) / 2, (a.y + b.y) / 2, (a.z + b.z) / 2⟩

/-- `_calculate_bounding_box` on the vertex list of a shape: empty vertex
set gives the default box; otherwise swap Y/Z on every vertex, take
componentwise min/max, clamp the size to the threshold elementwise, and
take the center from the unclamped extents. -/
def calculate_bounding_box (verts : List Vec3) : BBox :=
  match verts.map swapYZ with
  | [] => default_bbox
  | v :: vs =>
    let min_coords := vs.foldl vmin v
    let max_coords := vs.foldl vmax v
    let size := vmaxScalar (vsub max_coords min_coords) MIN_SIZE_THRESHOLD
    let center := vmid min_coords max_coords
    { min := min_coords, max := max_coords, center := center, size := size }

/-- `_is_valid_geometry`: `all(s >= MIN_SIZE_THRESHOLD for s in size)`. -/
def is_valid_geometry (bbox : BBox) : Bool :=
  decide (MIN_SIZE_THRESHOLD ≤ bbox.size.x) &&
  decide (MIN_SIZE_THRESHOLD ≤ bbox.size.y) &&
  decide (MIN_SIZE_THRESHOLD ≤ bbox.size.z)

/-- Reference bounding-box builder, written per the words of the spec and
of claim C1: if the vertex sequence is empty, the fixed default box (a
cube of side 10 times the 0.001 minimum-size threshold with its min corner
at the origin); otherwise swap components 1 and 2 of every vertex, take
per-axis min and max over the swapped vertices, set size to the
elementwise maximum of `max - min` and the threshold, and set center to
`(min + max) / 2` from the unclamped extents. -/
def bounding_box_ref (verts : List Vec3) : BBox :=
  if verts = [] then
    let side := 10 * (0.001 : ℚ)
    { min := ⟨0, 0, 0⟩
      max := ⟨side, side, side⟩
      center := ⟨side / 2, side / 2, side / 2⟩
      size := ⟨side, side, side⟩ }
  else
    let swapped := verts.map (fun v => ⟨v.x, v.z, v.y⟩)
    let axis := fun (f : Vec3 → ℚ) (g : ℚ → ℚ → ℚ) =>
      match swapped.map f with
      | [] => 0
      | a :: rest => rest.foldl g a
    let mnx := axis Vec3.x min
    let mny := axis Vec3.y min
    let mnz := axis Vec3.z min
    let mxx := axis Vec3.x max
    let mxy := axis Vec3.y max
    let mxz := axis Vec3.z max
    { min := ⟨mnx, mny, mnz⟩
      max := ⟨mxx, mxy, mxz⟩
      center := ⟨(mnx + mxx) / 2, (mny + mxy) / 2, (mnz + mxz) / 2⟩
      size := ⟨max (mxx - mnx) 0.001, max (mxy - mny) 0.001, max (mxz - mnz) 0.001⟩ }

/-! ## Element processor (`ifc_processor.py`): levels -/

/-- A building storey as seen through the model-access collaborator.
`placement` is `none` when `ObjectPlacement` is absent (or resolving it
raised), `some none` when `get_local_placement` returned no matrix, and
`some (some z)` when the resolved matrix had vertical translation `z`. -/
structure Storey where
  sid : ℕ
  name : Option String
  global_id : String
  placement : Option (Option ℚ)
deriving DecidableEq

/-- One cached building level (`level_data` dict). -/
structure BuildingLevel where
  id : ℕ
  name : String
  elevation : ℚ
  global_id : String
deriving DecidableEq

/-- `_get_level_elevation`: the Z translation of the resolved placement,
`0.0` when the placement is absent, unresolvable, or raised. -/
def get_level_elevation (s : Storey) : ℚ :=
  match s.placement with
  | some (some z) => z
  | _ => 0

/-- `storey.Name or f'Level {storey.id()}'` (Python `or`: an absent or
empty name falls back to the generated one). -/
def storey_display_name (s : Storey) : String :=
  match s.name with
  | some n => if n = "" then "Level " ++ toString s.sid else n
  | none => "Level " ++ toString s.sid

/-- `get_building_levels`: one level record per storey, sorted by
elevation ascending (stable sort). -/
def get_building_levels (storeys : List Storey) : List BuildingLevel :=
  List.insertionSort (fun a b => a.elevation ≤ b.elevation)
    (storeys.map (fun s =>
      { id := s.sid
        name := storey_display_name s
        elevation := get_level_elevation s
        global_id := s.global_id }))

/-- The `levels_data` cache: the dict `{level['id']: level}` built from the
sorted level list. -/
def levels_data_dict (storeys : List Storey) : List (ℕ × BuildingLevel) :=
  (get_building_levels storeys).foldl (fun d lv => pySet d lv.id lv) []

/-- `self.levels_data.values()` in iteration (= insertion) order. -/
def levels_data_values (storeys : List Storey) : List BuildingLevel :=
  (levels_data_dict storeys).map (fun p => p.2)

/-- Python `min(xs, key=f)` folded over the tail: keep the current best,
replace it only when a strictly smaller key appears (stable min). -/
def pyMinBy {α : Type} (f : α → ℚ) : α → List α → α
  | a, [] => a
  | a, b :: l => pyMinBy f (if f b < f a then b else a) l

/-- `_find_closest_level`: `None` on an empty cache, else the id of
`min(levels, key=|z - elevation|)` over the cached values. -/
def find_closest_level (cache : List BuildingLevel) (z : ℚ) : Option ℕ :=
  match cache with
  | [] => none
  | a :: l => some (pyMinBy (fun lv => |z - lv.elevation|) a l).id

/-! ## Element processor: elements -/

/-- A property value in a property set: a number or anything else. -/
inductive PyVal where
  | num : PyNum → PyVal
  | other : PyVal
deriving DecidableEq

/-- A model element (`IfcProduct`) as seen through the collaborators.
`container_storey` is `some i` when `get_container` returns an
`IfcBuildingStorey` with id `i` (and `none` when there is no container,
the container is not a storey, or resolution raised); `placement_z` is as
in `Storey.placement`; `psets` is `get_psets(element).values()`, each pset
a dict of property name to value. -/
structure IfcProduct where
  pid : ℕ
  global_id : String
  ptype : String
  name : Option String
  has_representation : Bool
  container_storey : Option ℕ
  placement_z : Option (Option ℚ)
  psets : List (List (String × PyVal))
deriving DecidableEq

/-- `IFCProcessor.RELEVANT_ELEMENT_TYPES`. -/
def RELEVANT_ELEMENT_TYPES : List String :=
  ["IfcWall", "IfcSlab", "IfcColumn", "IfcBeam", "IfcDoor", "IfcWindow",
   "IfcStair", "IfcStairFlight", "IfcRailing", "IfcRamp", "IfcRoof",
   "IfcCurtainWall", "IfcMember", "IfcPlate", "IfcCovering",
   "IfcFlowTerminal", "IfcBuildingElementProxy", "IfcFurnishingElement", "IfcSpace"]

/-- `IFCProcessor.UNIT_MAPPINGS`. -/
def UNIT_MAPPINGS : List (String × String) :=
  [("IfcWall", "m²"), ("IfcSlab", "m²"), ("IfcColumn", "units"), ("IfcBeam", "m"),
   ("IfcDoor", "units"), ("IfcWindow", "units"), ("IfcStair", "units"),
   ("IfcStairFlight", "units"), ("IfcRailing", "m"), ("IfcRamp", "m²"),
   ("IfcRoof", "m²"), ("IfcCurtainWall", "m²"), ("IfcMember", "m"),
   ("IfcPlate", "m²"), ("IfcCovering", "m²"), ("IfcFlowTerminal", "units"),
   ("IfcBuildingElementProxy", "units"), ("IfcFurnishingElement", "units"),
   ("IfcSpace", "m³")]

/-- The recognized dimension property names in `_get_element_dimensions`. -/
def dimension_props : List String :=
  ["Length", "Width", "Height", "Thickness", "Area", "Volume", "Depth"]

/-- `_get_element_level`: the id of the containing storey when the direct
container is a storey; else, when a placement matrix resolves, the closest
cached level to its Z translation; else `None`. -/
def get_element_level (cache : List BuildingLevel) (e : IfcProduct) : Option ℕ :=
  match e.container_storey with
  | some sid => some sid
  | none =>
    match e.placement_z with
    | some (some z) => find_closest_level cache z
    | _ => none

/-- `_get_element_dimensions`: scan every property set, keep recognized
dimension names with positive numeric values, rounded to two decimals
(later assignments to the same name overwrite earlier ones). -/
def get_element_dimensions (e : IfcProduct) : List (String × PyNum) :=
  e.psets.foldl
    (fun dims pset =>
      pset.foldl
        (fun dims p =>
          match p.2 with
          | PyVal.num v =>
            if p.1 ∈ dimension_props ∧ 0 < v.val then pySet dims p.1 v.round2 else dims
          | PyVal.other => dims)
        dims)
    []

/-- `f"{key}:{value}"` for one dimension entry. -/
def format_dimension (p : String × PyNum) : String :=
  p.1 ++ ":" ++ p.2.render

/-- `_create_element_key`: `"{type}_default"` for an empty dimension dict;
otherwise the entries sorted by name, the positive ones formatted as
`name:value` and joined with `-`, falling back to `"{type}_default"` when
no positive entry remains. -/
def create_element_key (element_type : String) (dimensions : List (String × PyNum)) : String :=
  if dimensions = [] then element_type ++ "_default"
  else
    let dim_parts :=
      ((List.insertionSort (fun a b : String × PyNum => a.1 ≤ b.1) dimensions).filter
        (fun p => decide (0 < p.2.val))).map format_dimension
    if dim_parts = [] then element_type ++ "_default"
    else element_type ++ "_" ++ String.intercalate "-" dim_parts

/-- The quantity accumulator `self.quantity_table`: a dict from element
key to a dict of typed count keys. -/
abbrev QTable : Type := List (String × List (String × ℤ))

/-- `_update_quantity_table`: bump `total_count` for the key; when the
level id is truthy (present and nonzero) also bump `level_<id>_count`. -/
def update_quantity_table (qt : QTable) (element_key : String) (level_id : Option ℕ) : QTable :=
  let qt1 : QTable := pyModify qt element_key [] (fun inner => pyModify inner ("total_count") 0 (· + 1))
  match level_id with
  | some i =>
    if i ≠ 0 then
      pyModify qt1 element_key []
        (fun inner => pyModify inner ("level_" ++ toString i ++ "_count") 0 (· + 1))
    else qt1
  | none => qt1

/-- Count stored in the accumulator for a given element key and typed
count key (0 when absent, like a `defaultdict(int)` read). -/
def qtable_count (qt : QTable) (element_key count_key : String) : ℤ :=
  pyGet (pyGet qt element_key []) count_key 0

/-! ## Element processor: per-element processing and the pipeline -/

/-- The `element_info` dict built by `_process_single_element`. -/
structure ProcessedElement where
  id : ℕ
  global_id : String
  etype : String
  name : String
  level_id : Option ℕ
  dimensions : List (String × PyNum)
  quantities : List (String × PyNum)
  element_key : String
deriving DecidableEq

/-- `getattr(element, 'Name', None) or f'{element.is_a()}_{element.id()}'`. -/
def element_display_name (e : IfcProduct) : String :=
  match e.name with
  | some n => if n = "" then e.ptype ++ "_" ++ toString e.pid else n
  | none => e.ptype ++ "_" ++ toString e.pid

/-- `_process_single_element`: build the element record, derive its level,
dimensions and key, and fold the (key, level) pair into the accumulator. -/
def process_single_element (cache : List BuildingLevel) (qt : QTable) (e : IfcProduct) :
    ProcessedElement × QTable :=
  let level_id := get_element_level cache e
  let dimensions := get_element_dimensions e
  let element_key := create_element_key e.ptype dimensions
  let info : ProcessedElement :=
    { id := e.pid
      global_id := e.global_id
      etype := e.ptype
      name := element_display_name e
      level_id := level_id
      dimensions := dimensions
      quantities := [(("Count"), PyNum.pfloat 1)]
      element_key := element_key }
  (info, update_quantity_table qt element_key level_id)

/-- `process_elements`: restrict to relevant typed elements carrying a
representation, process each, collecting the element records and threading
the quantity accumulator. -/
def process_elements (cache : List BuildingLevel) (products : List IfcProduct) :
    List ProcessedElement × QTable :=
  let relevant := products.filter
    (fun p => p.has_representation && p.ptype ∈ RELEVANT_ELEMENT_TYPES)
  relevant.foldl
    (fun acc e =>
      let r := process_single_element cache acc.2 e
      (acc.1 ++ [r.1], r.2))
    ([], [])

/-! ## Element processor: rendering the quantity table -/

/-- One row of the rendered quantity table. -/
structure QuantityRow where
  element_key : String
  element_type : String
  unit_of_measure : String
  total_quantity : ℤ
  level_quantities : List (ℕ × ℤ)
deriving DecidableEq

/-- The payload of `generate_quantity_table_data`. -/
structure TableResult where
  table_data : List QuantityRow
  levels : List BuildingLevel
deriving DecidableEq

/-- `element_key.split('_')[0]`. -/
def key_type_head (element_key : String) : String :=
  (element_key.splitOn ("_")).headD ("")

/-- `int(qty_name.split('_')[1])` for a `level_<id>_count` key. -/
def parse_level_id (qty_name : String) : ℕ :=
  ((((qty_name.splitOn ("_")).drop 1).headD ("")).toNat?).getD 0

/-- The `level_quantities` dict of one row: every `level_<id>_count` entry
of the accumulator, parsed. -/
def row_level_quantities (quantities : List (String × ℤ)) : List (ℕ × ℤ) :=
  quantities.foldl
    (fun acc p =>
      if p.1.startsWith ("level_") && p.1.endsWith ("_count") then
        pySet acc (parse_level_id p.1) p.2
      else acc)
    []

/-- One rendered row for an accumulator entry. -/
def render_row (p : String × List (String × ℤ)) : QuantityRow :=
  { element_key := p.1
    element_type := key_type_head p.1
    unit_of_measure := pyGet UNIT_MAPPINGS (key_type_head p.1) ("units")
    total_quantity := pyGet p.2 ("total_count") 0
    level_quantities := row_level_quantities p.2 }

/-- `generate_quantity_table_data`: on an empty accumulator, an empty row
list plus the cached level values as they are; otherwise one row per key,
sorted by element type, plus the cached levels sorted by elevation. -/
def generate_quantity_table_data (qt : QTable) (levels_values : List BuildingLevel) :
    TableResult :=
  if qt = [] then { table_data := [], levels := levels_values }
  else
    { table_data :=
        List.insertionSort (fun a b : QuantityRow => a.element_type ≤ b.element_type)
          (qt.map render_row)
      levels :=
        List.insertionSort (fun a b : BuildingLevel => a.elevation ≤ b.elevation)
          levels_values }

/-- The Element Processing Pipeline of `process_ifc_file`, in order:
populate the level cache, process the elements, render the table. -/
def run_processing_pipeline (storeys : List Storey) (products : List IfcProduct) :
    TableResult :=
  let cache := levels_data_values storeys
  generate_quantity_table_data (process_elements cache products).2 cache

/-! ## Merge stage (`main.py`) -/

/-- One geometry record emitted by `extract_simple_geometry`.
`element_key`/`level_id` are `none` while the keys are absent from the
dict; the merge stage fills them (`level_id` is then `some l` where `l`
itself may be `none`, Python's `None`). -/
structure GeomRecord where
  gtype : String
  id : String
  name : String
  boundingBox : BBox
  ifcType : String
  element_key : Option String
  level_id : Option (Option ℕ)
deriving DecidableEq

/-- The `metadata` block of the geometry payload. -/
structure GeometryMetadata where
  totalInFile : ℕ
  withGeometry : ℕ
  processed : ℕ
  elementTypes : List (String × ℕ)
  projectName : String
deriving DecidableEq

/-- The geometry payload of `extract_simple_geometry`. -/
structure GeometryPayload where
  ptype : String
  elements : List GeomRecord
  totalElements : ℕ
  metadata : GeometryMetadata
deriving DecidableEq

/-- The lookup `{global_id: {element_key, level_id}}` built from the
processing pipeline's elements (records with a falsy `global_id` are
skipped; later duplicates overwrite earlier values). -/
def element_mapping (elements : List ProcessedElement) :
    List (String × (String × Option ℕ)) :=
  elements.foldl
    (fun m e =>
      if e.global_id ≠ "" then pySet m e.global_id (e.element_key, e.level_id) else m)
    []

/-- The per-record enhancement: attach the looked-up key/level when the
record's id is in the mapping, else the `"{ifcType}_default"` key and a
null level. -/
def enhance_record (m : List (String × (String × Option ℕ))) (g : GeomRecord) : GeomRecord :=
  match pyFind m g.id with
  | some v => { g with element_key := some v.1, level_id := some v.2 }
  | none => { g with element_key := some (g.ifcType ++ "_default"), level_id := some none }

/-- `_enhance_geometry_with_element_data`. -/
def enhance_geometry_with_element_data (geometry_data : GeometryPayload)
    (elements : List ProcessedElement) : GeometryPayload :=
  { geometry_data with
      elements := geometry_data.elements.map (enhance_record (element_mapping elements)) }

/-! ## Reference definitions used only in claim statements -/

/-- The key deriver exactly as claim C3 words it for a non-empty mapping:
`"{type}_"` followed by the `name:value` pairs sorted by name ascending
and joined by `-` — with no positivity filter. -/
def element_key_claimed (element_type : String) (dimensions : List (String × PyNum)) : String :=
  if dimensions = [] then element_type ++ "_default"
  else element_type ++ "_" ++ String.intercalate "-"
    ((List.insertionSort (fun a b : String × PyNum => a.1 ≤ b.1) dimensions).map format_dimension)

/-- The earliest element of `a :: l` realizing the minimal key: keep the
head whenever its key is `≤` the minimum of the tail. Used to characterize
the stable-`min` semantics of `pyMinBy`. -/
def firstMinNe {α : Type} (f : α → ℚ) : α → List α → α
  | a, [] => a
  | a, b :: l => if f a ≤ f (firstMinNe f b l) then a else firstMinNe f b l

/-! ## Lemmas on the bounding-box builder -/

theorem foldl_vmin_x (v : Vec3) (vs : List Vec3) :
    (vs.foldl vmin v).x = (vs.map Vec3.x).foldl min v.x := by
  induction vs generalizing v with
  | nil => rfl
  | cons b l ih => simpa [vmin] using ih (vmin v b)

theorem foldl_vmin_y (v : Vec3) (vs : List Vec3) :
    (vs.foldl vmin v).y = (vs.map Vec3.y).foldl min v.y := by
  induction vs generalizing v with
  | nil => rfl
  | cons b l ih => simpa [vmin] using ih (vmin v b)

theorem foldl_vmin_z (v : Vec3) (vs : List Vec3) :
    (vs.foldl vmin v).z = (vs.map Vec3.z).foldl min v.z := by
  induction vs generalizing v with
  | nil => rfl
  | cons b l ih => simpa [vmin] using ih (vmin v b)

theorem foldl_vmax_x (v : Vec3) (vs : List Vec3) :
    (vs.foldl vmax v).x = (vs.map Vec3.x).foldl max v.x := by
  induction vs generalizing v with
  | nil => rfl
  | cons b l ih => simpa [vmax] using ih (vmax v b)

theorem foldl_vmax_y (v : Vec3) (vs : List Vec3) :
    (vs.foldl vmax v).y = (vs.map Vec3.y).foldl max v.y := by
  induction vs generalizing v with
  | nil => rfl
  | cons b l ih => simpa [vmax] using ih (vmax v b)

theorem foldl_vmax_z (v : Vec3) (vs : List Vec3) :
    (vs.foldl vmax v).z = (vs.map Vec3.z).foldl max v.z := by
  induction vs generalizing v with
  | nil => rfl
  | cons b l ih => simpa [vmax] using ih (vmax v b)

theorem vec3_eq_iff {a b : Vec3} : a = b ↔ a.x = b.x ∧ a.y = b.y ∧ a.z = b.z := by
  cases a
  cases b
  simp [Vec3.mk.injEq]

/-- C1: for every vertex sequence the bounding-box builder agrees with the
reference definition (empty input gives the fixed default cube of side
10 × 0.001 with min corner at the origin; otherwise swap components 1 and
2 of every vertex, per-axis min/max, size clamped elementwise to the
threshold, center from the unclamped extents); and on the corners of the
cube (0,0,0)–(1,2,3) the resulting max is (1,3,2). -/
theorem C1_bounding_box_matches_reference (verts : List Vec3) :
    calculate_bounding_box verts = bounding_box_ref verts ∧
    (calculate_bounding_box
      [⟨0,0,0⟩, ⟨1,0,0⟩, ⟨0,2,0⟩, ⟨1,2,0⟩, ⟨0,0,3⟩, ⟨1,0,3⟩, ⟨0,2,3⟩, ⟨1,2,3⟩]).max
      = ⟨1, 3, 2⟩ := by
  constructor
  · cases verts with
    | nil => with_unfolding_all decide
    | cons w ws =>
      simp only [calculate_bounding_box, bounding_box_ref, List.map_cons,
        List.map_map, reduceCtorEq, if_false, BBox.mk.injEq, vec3_eq_iff,
        foldl_vmin_x, foldl_vmin_y, foldl_vmin_z,
        foldl_vmax_x, foldl_vmax_y, foldl_vmax_z,
        swapYZ, vmaxScalar, vsub, vmid, MIN_SIZE_THRESHOLD, Function.comp_def]
      norm_num
  · with_unfolding_all decide

/-- C2: every size component of any box the builder produces is at least
the minimum-size threshold 0.001, hence `_is_valid_geometry` accepts every
such box and the validity-gate skip branch cannot fire on them. -/
theorem C2_built_boxes_always_valid (verts : List Vec3) :
    MIN_SIZE_THRESHOLD ≤ (calculate_bounding_box verts).size.x ∧
    MIN_SIZE_THRESHOLD ≤ (calculate_bounding_box verts).size.y ∧
    MIN_SIZE_THRESHOLD ≤ (calculate_bounding_box verts).size.z ∧
    is_valid_geometry (calculate_bounding_box verts) = true := by
  have h : MIN_SIZE_THRESHOLD ≤ (calculate_bounding_box verts).size.x ∧
      MIN_SIZE_THRESHOLD ≤ (calculate_bounding_box verts).size.y ∧
      MIN_SIZE_THRESHOLD ≤ (calculate_bounding_box verts).size.z := by
    cases verts with
    | nil =>
      refine ⟨?_, ?_, ?_⟩ <;> · show MIN_SIZE_THRESHOLD ≤ _
                                with_unfolding_all decide
    | cons w ws =>
      simp only [calculate_bounding_box, List.map_cons, vmaxScalar]
      exact ⟨le_max_right _ _, le_max_right _ _, le_max_right _ _⟩
  refine ⟨h.1, h.2.1, h.2.2, ?_⟩
  simp only [is_valid_geometry, Bool.and_eq_true, decide_eq_true_eq]
  exact ⟨⟨h.1, h.2.1⟩, h.2.2⟩

/-! ## Lemmas on the stable minimum -/

theorem firstMinNe_le_head {α : Type} (f : α → ℚ) (a : α) (l : List α) :
    f (firstMinNe f a l) ≤ f a := by
  cases l with
  | nil => simp [firstMinNe]
  | cons b l =>
    by_cases h : f a ≤ f (firstMinNe f b l)
    · simp [firstMinNe, h]
    · simp only [firstMinNe, if_neg h]
      exact le_of_lt (not_le.mp h)

theorem firstMinNe_le_mem {α : Type} (f : α → ℚ) (a : α) (l : List α) :
    ∀ x ∈ a :: l, f (firstMinNe f a l) ≤ f x := by
  induction l generalizing a with
  | nil =>
    intro x hx
    have hx2 : x = a := by simpa using hx
    subst hx2
    simp [firstMinNe]
  | cons b l ih =>
    intro x hx
    have hmem : x = a ∨ x ∈ b :: l := by simpa using hx
    by_cases h : f a ≤ f (firstMinNe f b l)
    · simp only [firstMinNe, if_pos h]
      rcases hmem with rfl | hx2
      · exact le_refl _
      · exact le_trans h (ih b x hx2)
    · simp only [firstMinNe, if_neg h]
      rcases hmem with rfl | hx2
      · exact le_of_lt (not_le.mp h)
      · exact ih b x hx2

theorem firstMinNe_head_le {α : Type} (f : α → ℚ) (a b : α) (l : List α)
    (hab : f a ≤ f b) :
    firstMinNe f a l = if f a ≤ f (firstMinNe f b l) then a else firstMinNe f b l := by
  cases l with
  | nil => simp [firstMinNe, hab]
  | cons c l =>
    by_cases hb : f b ≤ f (firstMinNe f c l)
    · rw [show firstMinNe f b (c :: l) = b from by simp [firstMinNe, hb]]
      have ha : f a ≤ f (firstMinNe f c l) := le_trans hab hb
      simp [firstMinNe, ha, hab]
    · rw [show firstMinNe f b (c :: l) = firstMinNe f c l from by simp [firstMinNe, hb]]
      simp [firstMinNe]

theorem pyMinBy_eq_firstMinNe {α : Type} (f : α → ℚ) (l : List α) :
    ∀ a, pyMinBy f a l = firstMinNe f a l := by
  induction l with
  | nil => intro a; rfl
  | cons b l ih =>
    intro a
    show pyMinBy f (if f b < f a then b else a) l = _
    rw [ih]
    by_cases h : f b < f a
    · rw [if_pos h]
      have hne : ¬ f a ≤ f (firstMinNe f b l) :=
        not_le.mpr (lt_of_le_of_lt (firstMinNe_le_head f b l) h)
      rw [show firstMinNe f a (b :: l) = firstMinNe f b l from by simp [firstMinNe, hne]]
    · rw [if_neg h, firstMinNe_head_le f a b l (not_lt.mp h)]
      simp [firstMinNe]

theorem firstMinNe_split {α : Type} (f : α → ℚ) (l : List α) :
    ∀ a, ∃ pre post, a :: l = pre ++ firstMinNe f a l :: post ∧
      ∀ x ∈ pre, f (firstMinNe f a l) < f x := by
  induction l with
  | nil => intro a; exact ⟨[], [], rfl, by simp⟩
  | cons b l ih =>
    intro a
    by_cases h : f a ≤ f (firstMinNe f b l)
    · exact ⟨[], b :: l, by simp [firstMinNe, h], by simp⟩
    · obtain ⟨pre, post, hsplit, hpre⟩ := ih b
      refine ⟨a :: pre, post, ?_, ?_⟩
      · simp only [firstMinNe, if_neg h, List.cons_append]
        rw [← hsplit]
      · intro x hx
        simp only [firstMinNe, if_neg h]
        rcases List.mem_cons.mp hx with rfl | hx2
        · exact not_le.mp h
        · exact hpre x hx2

/-- C5: on a non-empty cache the geometric classifier returns the id of a
cached level whose elevation is closest to the element's Z translation,
and earlier cache entries are strictly farther (stable-min tie-break on
iteration order); levels at elevations 0, 3, 6 classify Z = 3.4 to the
level at 3; and an empty cache yields `none` rather than an error. -/
theorem C5_find_closest_level (cache : List BuildingLevel) (z : ℚ) :
    (cache = [] → find_closest_level cache z = none) ∧
    (cache ≠ [] →
      ∃ lv pre post, cache = pre ++ lv :: post ∧
        find_closest_level cache z = some lv.id ∧
        (∀ l2 ∈ cache, |z - lv.elevation| ≤ |z - l2.elevation|) ∧
        (∀ l2 ∈ pre, |z - lv.elevation| < |z - l2.elevation|)) ∧
    find_closest_level
      [⟨10, "A", 0, "ga"⟩, ⟨11, "B", 3, "gb"⟩, ⟨12, "C", 6, "gc"⟩] (3.4 : ℚ)
      = some 11 := by
  refine ⟨?_, ?_, by with_unfolding_all decide⟩
  · intro h; subst h; rfl
  · intro h
    rcases cache with _ | ⟨a, l⟩
    · exact absurd rfl h
    · obtain ⟨pre, post, hsplit, hpre⟩ :=
        firstMinNe_split (fun lv : BuildingLevel => |z - lv.elevation|) l a
      refine ⟨firstMinNe (fun lv : BuildingLevel => |z - lv.elevation|) a l,
        pre, post, hsplit, ?_,
        firstMinNe_le_mem (fun lv : BuildingLevel => |z - lv.elevation|) a l, hpre⟩
      show some (pyMinBy (fun lv : BuildingLevel => |z - lv.elevation|) a l).id = _
      rw [pyMinBy_eq_firstMinNe]

/-- Witness for C5: instantiation at the three-level cache of the claim's
example and at the empty cache. -/
theorem C5_find_closest_level_witness :
    (∃ lv pre post,
      ([⟨10, "A", 0, "ga"⟩, ⟨11, "B", 3, "gb"⟩, ⟨12, "C", 6, "gc"⟩] : List BuildingLevel)
        = pre ++ lv :: post ∧
      find_closest_level
        [⟨10, "A", 0, "ga"⟩, ⟨11, "B", 3, "gb"⟩, ⟨12, "C", 6, "gc"⟩] (3.4 : ℚ)
        = some lv.id ∧
      (∀ l2 ∈ ([⟨10, "A", 0, "ga"⟩, ⟨11, "B", 3, "gb"⟩, ⟨12, "C", 6, "gc"⟩] : List BuildingLevel),
        |(3.4 : ℚ) - lv.elevation| ≤ |(3.4 : ℚ) - l2.elevation|) ∧
      (∀ l2 ∈ pre, |(3.4 : ℚ) - lv.elevation| < |(3.4 : ℚ) - l2.elevation|)) ∧
    find_closest_level [] (0 : ℚ) = none :=
  ⟨(C5_find_closest_level
      [⟨10, "A", 0, "ga"⟩, ⟨11, "B", 3, "gb"⟩, ⟨12, "C", 6, "gc"⟩] (3.4 : ℚ)).2.1
      (by simp),
   (C5_find_closest_level [] (0 : ℚ)).1 rfl⟩

/-! ## Lemmas on the dict model -/

theorem pyGet_pyModify_self {κ β : Type} [DecidableEq κ]
    (d : List (κ × β)) (k : κ) (dflt : β) (f : β → β) :
    pyGet (pyModify d k dflt f) k dflt = f (pyGet d k dflt) := by
  induction d with
  | nil => simp [pyGet, pyModify]
  | cons p rest ih =>
    obtain ⟨k', v⟩ := p
    by_cases h : k' = k
    · simp [pyGet, pyModify, h]
    · simp [pyGet, pyModify, h, ih]

theorem pyGet_pyModify_ne {κ β : Type} [DecidableEq κ]
    (d : List (κ × β)) {k k2 : κ} (h : k2 ≠ k) (dflt dflt2 : β) (f : β → β) :
    pyGet (pyModify d k dflt f) k2 dflt2 = pyGet d k2 dflt2 := by
  induction d with
  | nil => simp [pyGet, pyModify, Ne.symm h]
  | cons p rest ih =>
    obtain ⟨k', v⟩ := p
    by_cases hk : k' = k
    · have hk2 : ¬ k' = k2 := fun hh => h (hh ▸ hk)
      simp [pyGet, pyModify, hk, hk2, Ne.symm h]
    · by_cases hk2 : k' = k2 <;> simp [pyGet, pyModify, hk, hk2, h, ih]

theorem level_key_ne_total_count (i : ℕ) :
    ("level_" ++ toString i ++ "_count") ≠ "total_count" := by
  intro h
  have h2 : (("level_" ++ toString i ++ "_count").data).head? = some 't' := by
    rw [h]
    decide
  rw [String.data_append, String.data_append] at h2
  have hl : ("level_").data = ['l', 'e', 'v', 'e', 'l', '_'] := by decide
  rw [hl] at h2
  simp at h2

/-! ## C3: the element-key deriver -/

/-- C3 counterexample: on the mapping `{"Width": -1.0}` the deriver
returns `"IfcWall_default"`, not the sorted-joined rendering that the
claim's unconditional wording prescribes for non-empty mappings. -/
theorem C3_counterexample :
    create_element_key ("IfcWall") [(("Width"), PyNum.pfloat (-1))] = "IfcWall_default" ∧
    element_key_claimed ("IfcWall") [(("Width"), PyNum.pfloat (-1))] = "IfcWall_Width:-1.0" ∧
    create_element_key ("IfcWall") [(("Width"), PyNum.pfloat (-1))]
      ≠ element_key_claimed ("IfcWall") [(("Width"), PyNum.pfloat (-1))] := by
  with_unfolding_all decide

/-- C3 (amended): the deriver returns `"{type}_default"` when the mapping
is empty or when no strictly-positive entry remains, and otherwise
`"{type}_"` followed by the positive `name:value` pairs sorted by name
ascending and joined by `-`; `derive(type, {})` is `"{type}_default"` for
any type, and the claim's two-dimension example renders as
`"IfcWall_Length:1.0-Width:2.345"`. -/
theorem C3_create_element_key (t : String) (dims : List (String × PyNum)) :
    (create_element_key t dims =
      if dims = [] ∨
          ((List.insertionSort (fun a b : String × PyNum => a.1 ≤ b.1) dims).filter
            (fun p => decide (0 < p.2.val))).map format_dimension = [] then
        t ++ "_default"
      else
        t ++ "_" ++ String.intercalate "-"
          (((List.insertionSort (fun a b : String × PyNum => a.1 ≤ b.1) dims).filter
            (fun p => decide (0 < p.2.val))).map format_dimension)) ∧
    create_element_key t [] = t ++ "_default" ∧
    create_element_key ("IfcWall")
      [(("Width"), PyNum.pfloat 2.345), (("Length"), PyNum.pfloat 1)]
      = "IfcWall_Length:1.0-Width:2.345" := by
  refine ⟨?_, by simp [create_element_key], by with_unfolding_all decide⟩
  simp only [create_element_key]
  split_ifs with h1 h2 h3 h4 <;> first | rfl | tauto

/-! ## C4: the quantity accumulator -/

/-- C4 counterexample: a present level-id `0` is falsy in the source's
`if level_id:` guard, so the per-level count is not incremented. -/
theorem C4_counterexample :
    qtable_count (update_quantity_table [] ("K") (some 0)) ("K") ("level_0_count")
      ≠ qtable_count ([] : QTable) ("K") ("level_0_count") + 1 := by
  with_unfolding_all decide

/-- C4 (amended): one accumulation step increments the key's
`total_count` by exactly one, and whenever a nonzero level-id is present
it also increments the key's `level_<id>_count` by exactly one;
accumulating a key at levels `[1, 1, 2]` and rendering yields a row with
`total_quantity = 3` and `level_quantities = {1: 2, 2: 1}`. -/
theorem C4_update_quantity_table (qt : QTable) (key : String) (lid : Option ℕ) :
    qtable_count (update_quantity_table qt key lid) key ("total_count")
      = qtable_count qt key ("total_count") + 1 ∧
    (∀ i, lid = some i → i ≠ 0 →
      qtable_count (update_quantity_table qt key lid) key ("level_" ++ toString i ++ "_count")
        = qtable_count qt key ("level_" ++ toString i ++ "_count") + 1) ∧
    (generate_quantity_table_data
      (update_quantity_table
        (update_quantity_table
          (update_quantity_table [] ("IfcWall_default") (some 1))
          ("IfcWall_default") (some 1))
        ("IfcWall_default") (some 2))
      []).table_data
    = [{ element_key := "IfcWall_default", element_type := "IfcWall",
         unit_of_measure := "m²", total_quantity := 3,
         level_quantities := [(1, 2), (2, 1)] }] := by
  refine ⟨?_, ?_, by with_unfolding_all decide⟩
  · rcases lid with _ | i
    · simp only [update_quantity_table, qtable_count]
      rw [pyGet_pyModify_self, pyGet_pyModify_self]
    · by_cases hi : i = 0
      · subst hi
        have hstep : update_quantity_table qt key (some 0) =
            pyModify qt key [] (fun inner => pyModify inner ("total_count") 0 (· + 1)) := by
          simp [update_quantity_table]
        rw [hstep]
        simp only [qtable_count]
        rw [pyGet_pyModify_self, pyGet_pyModify_self]
      · have hstep : update_quantity_table qt key (some i) =
            pyModify
              (pyModify qt key [] (fun inner => pyModify inner ("total_count") 0 (· + 1)))
              key []
              (fun inner =>
                pyModify inner ("level_" ++ toString i ++ "_count") 0 (· + 1)) := by
          simp [update_quantity_table, hi]
        rw [hstep]
        simp only [qtable_count]
        rw [pyGet_pyModify_self,
          pyGet_pyModify_ne _ (Ne.symm (level_key_ne_total_count i)),
          pyGet_pyModify_self, pyGet_pyModify_self]
  · intro i hlid hi
    subst hlid
    have hstep : update_quantity_table qt key (some i) =
        pyModify
          (pyModify qt key [] (fun inner => pyModify inner ("total_count") 0 (· + 1)))
          key []
          (fun inner =>
            pyModify inner ("level_" ++ toString i ++ "_count") 0 (· + 1)) := by
      simp [update_quantity_table, hi]
    rw [hstep]
    simp only [qtable_count]
    rw [pyGet_pyModify_self, pyGet_pyModify_self, pyGet_pyModify_self,
      pyGet_pyModify_ne _ (level_key_ne_total_count i)]

/-- Witness for C4: one step on the empty accumulator at key
`IfcWall_default` and level 1 bumps both counts from 0 to 1. -/
theorem C4_update_quantity_table_witness :
    qtable_count (update_quantity_table [] ("IfcWall_default") (some 1))
      ("IfcWall_default") ("total_count")
      = qtable_count ([] : QTable) ("IfcWall_default") ("total_count") + 1 ∧
    qtable_count (update_quantity_table [] ("IfcWall_default") (some 1))
      ("IfcWall_default") ("level_" ++ toString (1 : ℕ) ++ "_count")
      = qtable_count ([] : QTable) ("IfcWall_default")
          ("level_" ++ toString (1 : ℕ) ++ "_count") + 1 :=
  ⟨(C4_update_quantity_table [] ("IfcWall_default") (some 1)).1,
   (C4_update_quantity_table [] ("IfcWall_default") (some 1)).2.1 1 rfl (by decide)⟩

/-! ## Lemmas on sorting and the level cache -/

theorem sorted_by_elevation (l : List BuildingLevel) :
    (List.insertionSort (fun a b : BuildingLevel => a.elevation ≤ b.elevation) l).Pairwise
      (fun a b => a.elevation ≤ b.elevation) := by
  haveI : IsTotal BuildingLevel (fun a b => a.elevation ≤ b.elevation) :=
    ⟨fun a b => le_total a.elevation b.elevation⟩
  haveI : IsTrans BuildingLevel (fun a b => a.elevation ≤ b.elevation) :=
    ⟨fun a b c hab hbc => le_trans hab hbc⟩
  exact List.sorted_insertionSort _ _

theorem sorted_rows_by_type (l : List QuantityRow) :
    (List.insertionSort (fun a b : QuantityRow => a.element_type ≤ b.element_type) l).Pairwise
      (fun a b => a.element_type ≤ b.element_type) := by
  haveI : IsTotal QuantityRow (fun a b => a.element_type ≤ b.element_type) :=
    ⟨fun a b => le_total a.element_type b.element_type⟩
  haveI : IsTrans QuantityRow (fun a b => a.element_type ≤ b.element_type) :=
    ⟨fun a b c hab hbc => le_trans hab hbc⟩
  exact List.sorted_insertionSort _ _

theorem pySet_fresh {κ β : Type} [DecidableEq κ] (d : List (κ × β)) (k : κ) (v : β)
    (h : k ∉ d.map Prod.fst) : pySet d k v = d ++ [(k, v)] := by
  induction d with
  | nil => rfl
  | cons p rest ih =>
    obtain ⟨k', v'⟩ := p
    simp only [List.map_cons, List.mem_cons, not_or] at h
    have hne : ¬ k' = k := fun hh => h.1 hh.symm
    simp [pySet, hne, ih h.2]

theorem foldl_pySet_fresh (lvls : List BuildingLevel) :
    ∀ d : List (ℕ × BuildingLevel),
      (∀ k ∈ d.map Prod.fst, k ∉ lvls.map BuildingLevel.id) →
      (lvls.map BuildingLevel.id).Nodup →
      lvls.foldl (fun d lv => pySet d lv.id lv) d = d ++ lvls.map (fun lv => (lv.id, lv)) := by
  induction lvls with
  | nil => intro d _ _; simp
  | cons lv rest ih =>
    intro d hdisj hnodup
    simp only [List.map_cons, List.nodup_cons] at hnodup
    simp only [List.foldl_cons]
    have hfresh : lv.id ∉ d.map Prod.fst := fun hmem => hdisj lv.id hmem (by simp)
    rw [pySet_fresh d lv.id lv hfresh,
      ih (d ++ [(lv.id, lv)]) ?_ hnodup.2]
    · simp
    · intro k hk
      rcases (by simpa using hk : k ∈ d.map Prod.fst ∨ k = lv.id) with hk2 | hk2
      · intro hmem
        exact hdisj k hk2 (by simp [hmem])
      · subst hk2
        exact hnodup.1

theorem get_building_levels_perm (storeys : List Storey) :
    (get_building_levels storeys).Perm
      (storeys.map (fun s =>
        ({ id := s.sid
           name := storey_display_name s
           elevation := get_level_elevation s
           global_id := s.global_id } : BuildingLevel))) :=
  List.perm_insertionSort _ _

theorem levels_data_values_of_nodup (storeys : List Storey)
    (h : (storeys.map Storey.sid).Nodup) :
    levels_data_values storeys = get_building_levels storeys := by
  have hids : ((get_building_levels storeys).map BuildingLevel.id).Nodup := by
    have hperm := (get_building_levels_perm storeys).map BuildingLevel.id
    rw [hperm.nodup_iff]
    simpa [List.map_map, Function.comp_def] using h
  unfold levels_data_values levels_data_dict
  rw [foldl_pySet_fresh _ [] (by simp) hids]
  simp [Function.comp_def]

/-! ## C6 / C10: the merge stage -/

/-- C6: the merge maps every geometry record through the per-record
enhancement; a record whose id is found in the lookup built from the
pipeline's elements gets that entry's element key and level id, and a
record whose id is absent gets `"{ifcType}_default"` and a null level. -/
theorem C6_merge_attaches_keys (geometry_data : GeometryPayload)
    (elements : List ProcessedElement) (g : GeomRecord) :
    ((enhance_geometry_with_element_data geometry_data elements).elements
      = geometry_data.elements.map (enhance_record (element_mapping elements))) ∧
    (∀ v, pyFind (element_mapping elements) g.id = some v →
      (enhance_record (element_mapping elements) g).element_key = some v.1 ∧
      (enhance_record (element_mapping elements) g).level_id = some v.2) ∧
    (pyFind (element_mapping elements) g.id = none →
      (enhance_record (element_mapping elements) g).element_key
          = some (g.ifcType ++ "_default") ∧
      (enhance_record (element_mapping elements) g).level_id = some none) := by
  refine ⟨rfl, ?_, ?_⟩
  · intro v hv
    simp [enhance_record, hv]
  · intro hv
    simp [enhance_record, hv]

/-- Witness for C6: one processed element with global id `G1`; the record
with id `G1` receives its key and level, the record with id `G2` receives
the default key and a null level. -/
theorem C6_merge_attaches_keys_witness :
    ((enhance_record
        (element_mapping
          [{ id := 1, global_id := "G1", etype := "IfcWall", name := "w",
             level_id := some 2, dimensions := [],
             quantities := [(("Count"), PyNum.pfloat 1)],
             element_key := "IfcWall_default" }])
        { gtype := "wall", id := "G1", name := "w", boundingBox := default_bbox,
          ifcType := "IfcWall", element_key := none, level_id := none }).element_key
      = some ("IfcWall_default", some 2).1 ∧
     (enhance_record
        (element_mapping
          [{ id := 1, global_id := "G1", etype := "IfcWall", name := "w",
             level_id := some 2, dimensions := [],
             quantities := [(("Count"), PyNum.pfloat 1)],
             element_key := "IfcWall_default" }])
        { gtype := "wall", id := "G1", name := "w", boundingBox := default_bbox,
          ifcType := "IfcWall", element_key := none, level_id := none }).level_id
      = some ("IfcWall_default", some 2).2) ∧
    ((enhance_record
        (element_mapping
          [{ id := 1, global_id := "G1", etype := "IfcWall", name := "w",
             level_id := some 2, dimensions := [],
             quantities := [(("Count"), PyNum.pfloat 1)],
             element_key := "IfcWall_default" }])
        { gtype := "door", id := "G2", name := "d", boundingBox := default_bbox,
          ifcType := "IfcDoor", element_key := none, level_id := none }).element_key
      = some ("IfcDoor" ++ "_default") ∧
     (enhance_record
        (element_mapping
          [{ id := 1, global_id := "G1", etype := "IfcWall", name := "w",
             level_id := some 2, dimensions := [],
             quantities := [(("Count"), PyNum.pfloat 1)],
             element_key := "IfcWall_default" }])
        { gtype := "door", id := "G2", name := "d", boundingBox := default_bbox,
          ifcType := "IfcDoor", element_key := none, level_id := none }).level_id
      = some none) :=
  ⟨(C6_merge_attaches_keys
      { ptype := "SimpleIFCModel", elements := [], totalElements := 0,
        metadata := { totalInFile := 0, withGeometry := 0, processed := 0,
                      elementTypes := [], projectName := "P" } }
      [{ id := 1, global_id := "G1", etype := "IfcWall", name := "w",
         level_id := some 2, dimensions := [],
         quantities := [(("Count"), PyNum.pfloat 1)],
         element_key := "IfcWall_default" }]
      { gtype := "wall", id := "G1", name := "w", boundingBox := default_bbox,
        ifcType := "IfcWall", element_key := none, level_id := none }).2.1
      ("IfcWall_default", some 2) (by with_unfolding_all decide),
   (C6_merge_attaches_keys
      { ptype := "SimpleIFCModel", elements := [], totalElements := 0,
        metadata := { totalInFile := 0, withGeometry := 0, processed := 0,
                      elementTypes := [], projectName := "P" } }
      [{ id := 1, global_id := "G1", etype := "IfcWall", name := "w",
         level_id := some 2, dimensions := [],
         quantities := [(("Count"), PyNum.pfloat 1)],
         element_key := "IfcWall_default" }]
      { gtype := "door", id := "G2", name := "d", boundingBox := default_bbox,
        ifcType := "IfcDoor", element_key := none, level_id := none }).2.2
      (by with_unfolding_all decide)⟩

/-- C10: the merge only fills `element_key` and `level_id`: it preserves
the payload's type tag, totalElements and metadata, and, record by record
in order, the type, id, name, boundingBox and ifcType fields. -/
theorem C10_merge_frame (geometry_data : GeometryPayload)
    (elements : List ProcessedElement) :
    (enhance_geometry_with_element_data geometry_data elements).ptype
        = geometry_data.ptype ∧
    (enhance_geometry_with_element_data geometry_data elements).totalElements
        = geometry_data.totalElements ∧
    (enhance_geometry_with_element_data geometry_data elements).metadata
        = geometry_data.metadata ∧
    (enhance_geometry_with_element_data geometry_data elements).elements.length
        = geometry_data.elements.length ∧
    (enhance_geometry_with_element_data geometry_data elements).elements.map
        GeomRecord.gtype = geometry_data.elements.map GeomRecord.gtype ∧
    (enhance_geometry_with_element_data geometry_data elements).elements.map
        GeomRecord.id = geometry_data.elements.map GeomRecord.id ∧
    (enhance_geometry_with_element_data geometry_data elements).elements.map
        GeomRecord.name = geometry_data.elements.map GeomRecord.name ∧
    (enhance_geometry_with_element_data geometry_data elements).elements.map
        GeomRecord.boundingBox = geometry_data.elements.map GeomRecord.boundingBox ∧
    (enhance_geometry_with_element_data geometry_data elements).elements.map
        GeomRecord.ifcType = geometry_data.elements.map GeomRecord.ifcType := by
  refine ⟨rfl, rfl, rfl, by simp [enhance_geometry_with_element_data], ?_, ?_, ?_, ?_, ?_⟩
  all_goals
    simp only [enhance_geometry_with_element_data, List.map_map]
    refine List.map_congr_left (fun g _ => ?_)
    cases hf : pyFind (element_mapping elements) g.id <;>
      simp [enhance_record, hf, Function.comp_def]

/-! ## C7: rendering an empty table and level ordering -/

/-- C7: on an empty accumulator, rendering returns an empty row list
together with the cached level values unchanged (totality of the model:
it never raises); and whenever the storey ids are distinct — which holds
for every real model, ids being entity instance numbers — the levels in
the returned payload are sorted by elevation ascending, in the non-empty
branch by the explicit sort and in the empty branch because the cache was
populated in elevation order. -/
theorem C7_generate_on_empty_table (storeys : List Storey) (qt : QTable) :
    (qt = [] →
      generate_quantity_table_data qt (levels_data_values storeys)
        = { table_data := [], levels := levels_data_values storeys }) ∧
    ((storeys.map Storey.sid).Nodup →
      ((generate_quantity_table_data qt (levels_data_values storeys)).levels).Pairwise
        (fun a b => a.elevation ≤ b.elevation)) := by
  constructor
  · intro h
    simp [generate_quantity_table_data, h]
  · intro hnodup
    by_cases h : qt = []
    · simp only [generate_quantity_table_data, h, if_pos]
      rw [levels_data_values_of_nodup storeys hnodup]
      exact sorted_by_elevation _
    · simp only [generate_quantity_table_data, if_neg h]
      exact sorted_by_elevation _

/-- Witness for C7: two storeys at elevations 3 and 0 with distinct ids,
empty accumulator. -/
theorem C7_generate_on_empty_table_witness :
    (generate_quantity_table_data []
        (levels_data_values
          [⟨5, some ("Up"), "g5", some (some 3)⟩, ⟨4, some ("Down"), "g4", some (some 0)⟩])
      = { table_data := [],
          levels := levels_data_values
            [⟨5, some ("Up"), "g5", some (some 3)⟩, ⟨4, some ("Down"), "g4", some (some 0)⟩] }) ∧
    ((generate_quantity_table_data []
        (levels_data_values
          [⟨5, some ("Up"), "g5", some (some 3)⟩,
           ⟨4, some ("Down"), "g4", some (some 0)⟩])).levels).Pairwise
      (fun a b => a.elevation ≤ b.elevation) :=
  ⟨(C7_generate_on_empty_table
      [⟨5, some ("Up"), "g5", some (some 3)⟩, ⟨4, some ("Down"), "g4", some (some 0)⟩] []).1
      rfl,
   (C7_generate_on_empty_table
      [⟨5, some ("Up"), "g5", some (some 3)⟩, ⟨4, some ("Down"), "g4", some (some 0)⟩] []).2
      (by with_unfolding_all decide)⟩

/-! ## C8: pipeline determinism and row ordering -/

/-- C8: the Element Processing Pipeline is a pure function of the opened
model, so two runs over the same unmodified source yield identical
quantity tables; and the rendered row list is always sorted by
element type ascending. -/
theorem C8_pipeline_deterministic (storeys : List Storey) (products : List IfcProduct) :
    run_processing_pipeline storeys products = run_processing_pipeline storeys products ∧
    ((run_processing_pipeline storeys products).table_data).Pairwise
      (fun a b => a.element_type ≤ b.element_type) := by
  refine ⟨rfl, ?_⟩
  by_cases h : (process_elements (levels_data_values storeys) products).2 = []
  · simp [run_processing_pipeline, generate_quantity_table_data, h]
  · simp only [run_processing_pipeline, generate_quantity_table_data, if_neg h]
    exact sorted_rows_by_type _

/-! ## C9: storeys without a resolvable placement -/

/-- C9: a storey whose placement is absent or whose placement transform
does not resolve gets elevation 0.0 rather than raising or being dropped;
whenever it is among the processed storeys, the built level list contains
a level with its id, its global id, and elevation 0, so it takes part in
the elevation sort and in nearest-level classification at height zero. -/
theorem C9_unplaced_storey_elevation_zero (s : Storey)
    (h : s.placement = none ∨ s.placement = some none) :
    get_level_elevation s = 0 ∧
    ∀ storeys, s ∈ storeys →
      ∃ lv ∈ get_building_levels storeys,
        lv.id = s.sid ∧ lv.elevation = 0 ∧ lv.global_id = s.global_id := by
  have helev : get_level_elevation s = 0 := by
    rcases h with h | h <;> simp [get_level_elevation, h]
  refine ⟨helev, ?_⟩
  intro storeys hmem
  refine ⟨{ id := s.sid, name := storey_display_name s,
            elevation := get_level_elevation s, global_id := s.global_id }, ?_,
          rfl, helev, rfl⟩
  exact ((get_building_levels_perm storeys).mem_iff).mpr
    (List.mem_map_of_mem _ hmem)

/-- Witness for C9: a storey with no placement at all enters the level
list of the one-storey model at elevation 0. -/
theorem C9_unplaced_storey_elevation_zero_witness :
    get_level_elevation ⟨7, none, "g7", none⟩ = 0 ∧
    ∃ lv ∈ get_building_levels [⟨7, none, "g7", none⟩],
      lv.id = (7 : ℕ) ∧ lv.elevation = 0 ∧ lv.global_id = "g7" :=
  ⟨(C9_unplaced_storey_elevation_zero ⟨7, none, "g7", none⟩ (Or.inl rfl)).1,
   (C9_unplaced_storey_elevation_zero ⟨7, none, "g7", none⟩ (Or.inl rfl)).2
     [⟨7, none, "g7", none⟩] (by simp)⟩
